import Mathlib

/-!
Verification development for the blog-editor application (src/src/App.jsx).

The App component is a React function component.  Its reactive state
(useState hooks), the mutable refs (the rich-text-editor instance and the
autosave timer handle) and the browser localStorage are embedded as one
record `AppState`.  Each event handler of the component is embedded as a
state transformer.  Two facts about the JavaScript source shape the
embedding and are modelled explicitly:

1.  Inside one handler invocation, reads of the component state
    (`blogs`, `currentBlogId`, ...) see the values of the render that
    created the handler; `setX` calls only affect the next render.  So a
    handler that calls another handler (deleteBlog calls switchBlog) has
    both of them reading the same snapshot.  Functions that need this are
    parametrised over the snapshot (`snapBlogs`, `snapCurrentId`).

2.  The mount effect (useEffect with an empty dependency list,
    App.jsx:246-320) runs once; the change listener `handleContentChange`
    and the timer callback it arms close over the FIRST render state:
    `blogs = []`, `currentBlogId = null` (the useState initial values).
    These are `mountSnapshotBlogs` / `mountSnapshotCurrentId` below.

Clock values (Date.now, new Date().toLocaleString / toLocaleTimeString)
are passed in as explicit arguments.  localStorage is modelled with a
`quotaExceeded` flag: when it is set, setItem throws (Except.error); the
un-guarded setItem in switchBlog (App.jsx:180) therefore makes switchBlog
return Option, `none` standing for the uncaught exception aborting the
handler.  JavaScript string truthiness (null and the empty string are
falsy) is modelled by `jsTruthy`.
-/

/-- Whitespace for the purposes of String.prototype.trim and the regex
class in updateStats (App.jsx:211-212).  The ASCII whitespace characters;
the Unicode space characters that JavaScript also accepts do not occur in
any claim. -/
def isJsWs (c : Char) : Bool :=
  c = ' ' || c = '\t' || c = '\n' || c = '\r' || c = '\x0b' || c = '\x0c'

/-- Global replacement of the regex pattern: a less-than sign, then any
run of characters other than a greater-than sign, then a greater-than
sign (App.jsx:211).  Scanning state: `pending = some buf` means we are
after a less-than sign that has not yet found its closing greater-than
sign; `buf` holds (reversed) the characters read since.  If the input
ends in that state the regex never matched there, so the buffered
characters are emitted verbatim. -/
def stripTagsGo : Option (List Char) → List Char → List Char
  | none, [] => []
  | some buf, [] => '<' :: buf.reverse
  | none, c :: rest =>
      if c = '<' then stripTagsGo (some []) rest else c :: stripTagsGo none rest
  | some buf, c :: rest =>
      if c = '>' then stripTagsGo none rest else stripTagsGo (some (c :: buf)) rest

/-- content.replace(/<[^>]*>/g, "") from App.jsx:211. -/
def stripTagsL (l : List Char) : List Char := stripTagsGo none l

/-- String.prototype.trim: drop leading and trailing whitespace. -/
def trimL (l : List Char) : List Char :=
  ((l.dropWhile isJsWs).reverse.dropWhile isJsWs).reverse

/-- String.prototype.trim on strings. -/
def jsTrim (s : String) : String := String.mk (trimL s.toList)

/-- plainText.split(/\s+/) from App.jsx:212, on a character list.  The
Bool state records whether we are currently consuming a separator run of
whitespace; `acc` accumulates the current field (reversed).  Ending while
inside a separator run yields a trailing empty field, exactly as the
JavaScript split does. -/
def splitGo : Bool → List Char → List Char → List (List Char)
  | false, acc, [] => [acc.reverse]
  | false, acc, c :: rest =>
      if isJsWs c then acc.reverse :: splitGo true [] rest
      else splitGo false (c :: acc) rest
  | true, _, [] => [[]]
  | true, acc, c :: rest =>
      if isJsWs c then splitGo true acc rest
      else splitGo false [c] rest

/-- updateStats (App.jsx:210-216): strip the markup tags, trim, then
word count = length of the split on whitespace runs when the trimmed
text is non-empty (else zero), character count = length of the trimmed
text.  Returns (wordCount, charCount) as committed by setWordCount and
setCharCount. -/
def updateStats (content : String) : Nat × Nat :=
  let plainText := trimL (stripTagsL content.toList)
  (if 0 < plainText.length then (splitGo false [] plainText).length else 0,
   plainText.length)

/-- Independent characterisation of the word count used by the statistics
claim: the number of maximal runs of non-whitespace characters.  The Bool
state records whether the previous character belonged to such a run. -/
def countRunsGo : Bool → List Char → Nat
  | _, [] => 0
  | inRun, c :: rest =>
      if isJsWs c then countRunsGo false rest
      else if inRun then countRunsGo true rest
      else countRunsGo true rest + 1

/-- Number of whitespace-separated runs of a text. -/
def specWordCount (l : List Char) : Nat := countRunsGo false l

/-- Counting helper relating the two word counts: the number of maximal
whitespace runs, with a Bool state recording whether the previous
character was whitespace. -/
def wsRunsGo : Bool → List Char → Nat
  | _, [] => 0
  | inWs, c :: rest =>
      if isJsWs c then
        if inWs then wsRunsGo true rest else wsRunsGo true rest + 1
      else wsRunsGo false rest

/-- A document record, App.jsx:139-147 and App.jsx:261-267.  The two
numeric fields are present only on documents made by createNewBlog
(App.jsx:145-146), hence optional. -/
structure Blog where
  id : String
  title : String
  content : String
  createdAt : String
  lastSaved : String
  wordCount : Option Nat := none
  charCount : Option Nat := none
deriving DecidableEq, Repr

/-- The browser localStorage as seen through the two keys of
STORAGE_KEYS (App.jsx:10-13), with the collection entry already parsed.
`quotaExceeded` makes every setItem throw. -/
structure LocalStorage where
  blogs : Option (List Blog) := none
  currentBlogId : Option String := none
  quotaExceeded : Bool := false
deriving DecidableEq, Repr

/-- localStorage.setItem under the collection key; throws when the quota
is exceeded. -/
def setItemBlogs (st : LocalStorage) (bs : List Blog) : Except String LocalStorage :=
  if st.quotaExceeded then Except.error "QuotaExceededError"
  else Except.ok { st with blogs := some bs }

/-- localStorage.setItem under the current-id key; throws when the quota
is exceeded. -/
def setItemCurrentId (st : LocalStorage) (i : String) : Except String LocalStorage :=
  if st.quotaExceeded then Except.error "QuotaExceededError"
  else Except.ok { st with currentBlogId := some i }

/-- saveBlogs (App.jsx:127-133): serialize and write the collection,
catching and logging any storage error.  A failed write leaves the store
unchanged and is not propagated. -/
def saveBlogs (st : LocalStorage) (updatedBlogs : List Blog) : LocalStorage :=
  match setItemBlogs st updatedBlogs with
  | Except.ok st2 => st2
  | Except.error _ => st

/-- AUTO_SAVE_INTERVAL (App.jsx:15), in milliseconds. -/
def AUTO_SAVE_INTERVAL : Nat := 3000

/-- The component state: the useState hooks of App (App.jsx:89-97), the
rich-text-editor ref (`editor`: some content when an instance is mounted,
its value being what getContent returns and setContent overwrites), the
autosave timer ref (`pendingTimer`: the absolute time at which the armed
callback would fire), and the localStorage. -/
structure AppState where
  blogs : List Blog := []
  currentBlogId : Option String := none
  title : String := "Untitled Document"
  isSaved : Bool := true
  lastSaved : Option String := none
  wordCount : Nat := 0
  charCount : Nat := 0
  showNewBlogForm : Bool := false
  newBlogTitle : String := ""
  editor : Option String := none
  pendingTimer : Option Nat := none
  storage : LocalStorage := {}
deriving DecidableEq, Repr

/-- JavaScript truthiness of a nullable string: null and the empty
string are falsy. -/
def jsTruthy : Option String → Option String
  | none => none
  | some s => if s = "" then none else some s

/-- createNewBlog (App.jsx:136-156).  Rejects a blank title before any
state change; otherwise builds the new document with its clock-derived
id (`idNow` embeds Date.now().toString(), `now` the locale timestamps),
prepends it to the collection, makes it active, persists the collection
and resets the creation form. -/
def createNewBlog (s : AppState) (idNow now : String) : AppState :=
  if jsTrim s.newBlogTitle = "" then s
  else
    let newBlog : Blog :=
      { id := idNow
        title := s.newBlogTitle
        content := "<h1>" ++ s.newBlogTitle ++ "</h1><p>Start writing...</p>"
        createdAt := now
        lastSaved := now
        wordCount := some 0
        charCount := some 0 }
    let updatedBlogs := newBlog :: s.blogs
    { s with
      blogs := updatedBlogs
      currentBlogId := some newBlog.id
      title := newBlog.title
      storage := saveBlogs s.storage updatedBlogs
      newBlogTitle := ""
      showNewBlogForm := false }

/-- First half of switchBlog (App.jsx:160-174): when an active document
and a live editor instance exist, write the current editor content into
the outgoing document of the snapshot collection and persist that
collection.  Note that the updated collection is passed to saveBlogs
only; there is no setBlogs call, so the in-memory `blogs` field is not
touched. -/
def flushOutgoing (snapBlogs : List Blog) (snapCurrentId : Option String)
    (s : AppState) (now : String) : AppState :=
  match jsTruthy snapCurrentId, s.editor with
  | some cid, some content =>
      { s with
        storage := saveBlogs s.storage
          (snapBlogs.map fun b =>
            if b.id = cid then { b with content := content, lastSaved := now }
            else b) }
  | _, _ => s

/-- Second half of switchBlog (App.jsx:176-187): look the target up in
the snapshot collection and, when found and an editor instance exists,
activate it, record the pointer in localStorage (an un-guarded setItem:
`none` models the uncaught exception when the quota is exceeded), load
its stored content into the editor and reset status and statistics. -/
def loadTarget (snapBlogs : List Blog) (s1 : AppState) (blogId : String) :
    Option AppState :=
  match snapBlogs.find? (fun b => b.id = blogId), s1.editor with
  | some blog, some _ =>
      match setItemCurrentId s1.storage blogId with
      | Except.ok st2 =>
          some { s1 with
                 currentBlogId := some blogId
                 storage := st2
                 title := blog.title
                 editor := some blog.content
                 lastSaved := some blog.lastSaved
                 wordCount := (updateStats blog.content).1
                 charCount := (updateStats blog.content).2
                 isSaved := true }
      | Except.error _ => none
  | _, _ => some s1

/-- switchBlog over an explicit snapshot (the component state of the
render whose closure is executing). -/
def switchBlogCore (snapBlogs : List Blog) (snapCurrentId : Option String)
    (s : AppState) (blogId now : String) : Option AppState :=
  loadTarget snapBlogs (flushOutgoing snapBlogs snapCurrentId s now) blogId

/-- switchBlog (App.jsx:159-188) invoked directly from the document
list: the snapshot is the current state. -/
def switchBlog (s : AppState) (blogId now : String) : Option AppState :=
  switchBlogCore s.blogs s.currentBlogId s blogId now

/-- Result of deleteBlog: the state, and whether the last-document
notice (the alert at App.jsx:193) was shown. -/
structure DeleteOutcome where
  state : AppState
  alerted : Bool
deriving DecidableEq, Repr

/-- deleteBlog (App.jsx:191-207).  A collection of exactly one document
makes it alert and return with no state change.  Otherwise, subject to
the window.confirm dialog (`confirmed`), it filters the document out of
the collection, commits that in memory and to localStorage, and when the
deleted document was active switches to the first remaining document.
The nested switchBlog call is the same closure, so it reads the
pre-delete snapshot (s.blogs, s.currentBlogId) while its writes land on
the accumulated state; `none` models the TypeError when the filtered
collection is empty (nextBlog undefined) or an uncaught storage error in
the switch. -/
def deleteBlog (s : AppState) (blogId now : String) (confirmed : Bool) :
    Option DeleteOutcome :=
  if s.blogs.length = 1 then some { state := s, alerted := true }
  else if confirmed then
    let updatedBlogs := s.blogs.filter fun b => b.id ≠ blogId
    let s1 := { s with blogs := updatedBlogs,
                       storage := saveBlogs s.storage updatedBlogs }
    if s.currentBlogId = some blogId then
      match updatedBlogs.head? with
      | some nextBlog =>
          (switchBlogCore s.blogs s.currentBlogId s1 nextBlog.id now).map
            fun st => { state := st, alerted := false }
      | none => none
    else some { state := s1, alerted := false }
  else some { state := s, alerted := false }

/-- saveCurrentBlog (App.jsx:219-243): merge the given content (and the
title, when non-empty) into the active document, commit in memory and to
localStorage, then mark the document saved.  `now` embeds
toLocaleString, `nowTime` toLocaleTimeString. -/
def saveCurrentBlog (s : AppState) (content blogTitle now nowTime : String) :
    AppState :=
  match jsTruthy s.currentBlogId with
  | none => s
  | some cid =>
      let updatedBlogs := s.blogs.map fun b =>
        if b.id = cid then
          { b with
            title := if blogTitle = "" then b.title else blogTitle
            content := content
            lastSaved := now }
        else b
      { s with
        blogs := updatedBlogs
        storage := saveBlogs s.storage updatedBlogs
        lastSaved := some nowTime
        isSaved := true }

/-- The component state of the first render, whose closure the mount
effect (and hence handleContentChange and the timer callback) captures:
the useState initial values at App.jsx:89-90. -/
def mountSnapshotBlogs : List Blog := []

/-- The currentBlogId of the first render, captured by the mount effect
closure. -/
def mountSnapshotCurrentId : Option String := none

/-- handleContentChange (App.jsx:276-307) up to arming the timer: mark
unsaved, cancel any pending timer (the overwrite of `pendingTimer`), and
arm a new timer due one quiet period after the signal at time `t`. -/
def handleContentChange (s : AppState) (t : Nat) : AppState :=
  { s with isSaved := false, pendingTimer := some (t + AUTO_SAVE_INTERVAL) }

/-- The body of the armed setTimeout callback (App.jsx:283-306), executed
when the timer fires: read the current editor content, determine the
active id from the captured snapshot (currentBlogId || blogs[0]?.id,
with JavaScript falsiness), and if one exists commit the content to the
collection and localStorage, refresh the display timestamp, mark saved
and recompute the statistics. -/
def autoSaveFire (snapBlogs : List Blog) (snapCurrentId : Option String)
    (s : AppState) (now nowTime : String) : AppState :=
  match s.editor with
  | none => { s with pendingTimer := none }
  | some content =>
      match jsTruthy ((jsTruthy snapCurrentId).orElse
          fun _ => snapBlogs.head?.map fun b => b.id) with
      | some currentId =>
          let updatedBlogs := snapBlogs.map fun b =>
            if b.id = currentId then { b with content := content, lastSaved := now }
            else b
          { s with
            blogs := updatedBlogs
            storage := saveBlogs s.storage updatedBlogs
            lastSaved := some nowTime
            isSaved := true
            wordCount := (updateStats content).1
            charCount := (updateStats content).2
            pendingTimer := none }
      | none => { s with pendingTimer := none }

/-- One change signal at time `t` in an event-driven run: a pending
timer whose deadline has passed fires first (counted), then the signal
is handled.  Returns the new state and the number of timer firings. -/
def processSignal (snapBlogs : List Blog) (snapCurrentId : Option String)
    (s : AppState) (t : Nat) (now nowTime : String) : AppState × Nat :=
  match s.pendingTimer with
  | some d =>
      if d ≤ t then (handleContentChange (autoSaveFire snapBlogs snapCurrentId s now nowTime) t, 1)
      else (handleContentChange s t, 0)
  | none => (handleContentChange s t, 0)

/-- A burst of change signals at the given (increasing) times, after
which the runtime idles long enough for any remaining timer to fire.
Returns the final state and the total number of timer firings. -/
def runBurst (snapBlogs : List Blog) (snapCurrentId : Option String)
    (s : AppState) (sigs : List Nat) (now nowTime : String) : AppState × Nat :=
  match sigs with
  | [] =>
      match s.pendingTimer with
      | some _ => (autoSaveFire snapBlogs snapCurrentId s now nowTime, 1)
      | none => (s, 0)
  | t :: rest =>
      let p := processSignal snapBlogs snapCurrentId s t now nowTime
      let q := runBurst snapBlogs snapCurrentId p.1 rest now nowTime
      (q.1, p.2 + q.2)

/-- The cleanup returned by the mount effect (App.jsx:312-318), run on
unmount: remove the listeners and clear a pending autosave timer.  It
performs no flush of the editor content. -/
def unmountCleanup (s : AppState) : AppState :=
  { s with pendingTimer := none }

/-- Run a sequence of delete commands, each given as
(target id, clock value, confirm-dialog answer).  An aborted handler
(uncaught exception) ends the run with `none`. -/
def applyDeletes : List (String × String × Bool) → AppState → Option AppState
  | [], s => some s
  | (blogId, now, confirmed) :: rest, s =>
      (deleteBlog s blogId now confirmed).bind fun o => applyDeletes rest o.state

/-- The user commands that create and destroy documents: typing a title
into the creation form, submitting the form, and deleting a document. -/
inductive EditorOp where
  | setNewTitle (t : String)
  | create (idNow now : String)
  | del (blogId now : String) (confirmed : Bool)

/-- Apply one command to the component state. -/
def applyOp (s : AppState) : EditorOp → Option AppState
  | EditorOp.setNewTitle t => some { s with newBlogTitle := t }
  | EditorOp.create idNow now => some (createNewBlog s idNow now)
  | EditorOp.del blogId now confirmed =>
      (deleteBlog s blogId now confirmed).map fun o => o.state

/-- Run a sequence of commands. -/
def applyOps : List EditorOp → AppState → Option AppState
  | [], s => some s
  | op :: rest, s => (applyOp s op).bind fun s2 => applyOps rest s2

/-- Every create command in the sequence happens at a clock instant
whose millisecond string differs from every id then in the collection
(Date.now did not repeat an existing id). -/
def createsFresh : List EditorOp → AppState → Bool
  | [], _ => true
  | op :: rest, s =>
      (match op with
       | EditorOp.create idNow _ => decide (idNow ∉ s.blogs.map Blog.id)
       | _ => true) &&
      (match applyOp s op with
       | some s2 => createsFresh rest s2
       | none => true)

/-! ### Concrete fixtures used by the witnesses and counterexamples -/

/-- A stored document with unsaved edits pending in the editor. -/
def blogA : Blog :=
  { id := "1", title := "A", content := "<p>seedA</p>"
    createdAt := "t0", lastSaved := "t0" }

/-- A second stored document. -/
def blogB : Blog :=
  { id := "2", title := "B", content := "<p>seedB</p>"
    createdAt := "t0", lastSaved := "t0" }

/-- A running session: two documents, document 1 active, the editor
holding the unsaved content X. -/
def sTwo : AppState :=
  { blogs := [blogA, blogB]
    currentBlogId := some "1"
    title := "A"
    isSaved := false
    lastSaved := some "t0"
    wordCount := 5
    charCount := 5
    editor := some "<p>X</p>"
    storage := { blogs := some [blogA, blogB], currentBlogId := some "1" } }

/-- A quiescent session with a single document, everything saved. -/
def sOne : AppState :=
  { blogs := [blogA]
    currentBlogId := some "1"
    title := "A"
    isSaved := true
    lastSaved := some "t0"
    editor := some "<p>edited</p>"
    storage := { blogs := some [blogA], currentBlogId := some "1" } }

/-- A single-document session with unsaved edits over a store whose
writes throw. -/
def sOneQuota : AppState :=
  { blogs := [blogA]
    currentBlogId := some "1"
    title := "A"
    isSaved := false
    lastSaved := some "t0"
    editor := some "<p>edited</p>"
    storage := { blogs := some [blogA], currentBlogId := some "1",
                 quotaExceeded := true } }

/-- The seeded first-run document (App.jsx:261-267, modulo the concrete
timestamps). -/
def welcomeBlog : Blog :=
  { id := "1", title := "Welcome"
    content := "<h1>Welcome to Your Professional Blog Editor</h1><p>Start writing your amazing content here...</p>"
    createdAt := "t0", lastSaved := "t0" }

/-- A seeded session with the creation form open on the title Notes. -/
def sSeedNotes : AppState :=
  { blogs := [welcomeBlog]
    currentBlogId := some "1"
    title := "Welcome"
    lastSaved := some "t0"
    showNewBlogForm := true
    newBlogTitle := "Notes"
    editor := some welcomeBlog.content
    storage := { blogs := some [welcomeBlog], currentBlogId := some "1" } }

/-- A command sequence whose create uses a clock id that collides with
nothing: type a title, create at millisecond 5, delete the seed. -/
def opsFreshW : List EditorOp :=
  [EditorOp.setNewTitle "Alpha", EditorOp.create "5" "t1",
   EditorOp.del "1" "t2" true]

/-- A command sequence with two creates in the same millisecond (both
Date.now values are 5). -/
def opsDupW : List EditorOp :=
  [EditorOp.setNewTitle "Alpha", EditorOp.create "5" "t1",
   EditorOp.setNewTitle "Beta", EditorOp.create "5" "t2"]

/-! ### Frame lemmas about the switch protocol -/

/-- The flush half of switchBlog only writes to localStorage: every
component-state field is left alone. -/
theorem flushOutgoing_frame (snapBlogs : List Blog) (snapCurrentId : Option String)
    (s : AppState) (now : String) :
    ∃ st, flushOutgoing snapBlogs snapCurrentId s now = { s with storage := st } := by
  unfold flushOutgoing
  split
  · exact ⟨_, rfl⟩
  · exact ⟨s.storage, rfl⟩

/-- The load half of switchBlog never writes the in-memory collection
nor the autosave timer. -/
theorem loadTarget_frame (snapBlogs : List Blog) (s1 : AppState) (blogId : String)
    (st : AppState) (h : loadTarget snapBlogs s1 blogId = some st) :
    st.blogs = s1.blogs ∧ st.pendingTimer = s1.pendingTimer := by
  unfold loadTarget at h
  split at h
  · split at h
    · cases h; exact ⟨rfl, rfl⟩
    · cases h
  · cases h; exact ⟨rfl, rfl⟩

/-- switchBlog never writes the in-memory collection nor the autosave
timer. -/
theorem switchBlogCore_frame (snapBlogs : List Blog) (snapCurrentId : Option String)
    (s : AppState) (blogId now : String) (st : AppState)
    (h : switchBlogCore snapBlogs snapCurrentId s blogId now = some st) :
    st.blogs = s.blogs ∧ st.pendingTimer = s.pendingTimer := by
  unfold switchBlogCore at h
  obtain ⟨stor, hflush⟩ := flushOutgoing_frame snapBlogs snapCurrentId s now
  rw [hflush] at h
  have h2 := loadTarget_frame _ _ _ _ h
  exact ⟨h2.1, h2.2⟩

/-! ### Collection-shape lemmas for delete sequences -/

/-- With pairwise-distinct ids, filtering one id out of a collection
removes at most one document. -/
theorem length_le_filter_ne (l : List Blog) (x : String)
    (h : (l.map Blog.id).Nodup) :
    l.length ≤ (l.filter fun b => b.id ≠ x).length + 1 := by
  simp only [ne_eq, decide_not]
  induction l with
  | nil => simp
  | cons b t ih =>
    rw [List.map_cons, List.nodup_cons] at h
    have iht := ih h.2
    by_cases hb : b.id = x
    · have ht : t.filter (fun b => !decide (b.id = x)) = t := by
        apply List.filter_eq_self.mpr
        intro a ha
        have hax : a.id ≠ x := fun hax =>
          h.1 (List.mem_map.mpr ⟨a, ha, by rw [hax, hb]⟩)
        simp [hax]
      simp [List.filter_cons, hb, ht]
    · simp only [List.filter_cons, hb, decide_False, Bool.not_false, if_true,
        List.length_cons]
      omega

/-- The collection after deleteBlog: either unchanged, or (only when the
collection had more than one member) the filtered collection. -/
theorem deleteBlog_blogs (s : AppState) (blogId now : String) (c : Bool)
    (out : DeleteOutcome) (h : deleteBlog s blogId now c = some out) :
    out.state.blogs = s.blogs ∨
      (s.blogs.length ≠ 1 ∧
        out.state.blogs = s.blogs.filter fun b => b.id ≠ blogId) := by
  unfold deleteBlog at h
  dsimp only at h
  split at h
  · cases h; exact Or.inl rfl
  · rename_i h1
    split at h
    · split at h
      · split at h
        · rename_i nextBlog heq
          rw [Option.map_eq_some'] at h
          obtain ⟨st, hst, hout⟩ := h
          obtain ⟨hb, _⟩ := switchBlogCore_frame _ _ _ _ _ _ hst
          refine Or.inr ⟨h1, ?_⟩
          rw [← hout]
          exact hb
        · cases h
      · cases h; exact Or.inr ⟨h1, rfl⟩
    · cases h; exact Or.inl rfl

/-- deleteBlog preserves distinctness of ids, with no further
assumptions. -/
theorem deleteBlog_nodup (s : AppState) (blogId now : String) (c : Bool)
    (out : DeleteOutcome) (h2 : (s.blogs.map Blog.id).Nodup)
    (h : deleteBlog s blogId now c = some out) :
    (out.state.blogs.map Blog.id).Nodup := by
  rcases deleteBlog_blogs s blogId now c out h with heq | ⟨_, heq⟩
  · rw [heq]; exact h2
  · rw [heq]
    exact h2.sublist (List.Sublist.map Blog.id (List.filter_sublist s.blogs))

/-- On a non-empty collection with distinct ids, deleteBlog leaves a
non-empty collection with distinct ids. -/
theorem deleteBlog_preserves (s : AppState) (blogId now : String) (c : Bool)
    (out : DeleteOutcome) (h1 : s.blogs ≠ []) (h2 : (s.blogs.map Blog.id).Nodup)
    (h : deleteBlog s blogId now c = some out) :
    out.state.blogs ≠ [] ∧ (out.state.blogs.map Blog.id).Nodup := by
  refine ⟨?_, deleteBlog_nodup s blogId now c out h2 h⟩
  rcases deleteBlog_blogs s blogId now c out h with heq | ⟨hlen, heq⟩
  · rw [heq]; exact h1
  · rw [heq]
    have hl1 : 0 < s.blogs.length := List.length_pos.mpr h1
    have hfl := length_le_filter_ne s.blogs blogId h2
    have : 0 < (s.blogs.filter fun b => b.id ≠ blogId).length := by omega
    exact List.length_pos.mp this

/-- Every completed run of delete commands on a non-empty collection
with distinct ids ends with a non-empty collection with distinct ids. -/
theorem applyDeletes_preserves :
    ∀ (ops : List (String × String × Bool)) (s s' : AppState),
      s.blogs ≠ [] → (s.blogs.map Blog.id).Nodup → applyDeletes ops s = some s' →
      s'.blogs ≠ [] ∧ (s'.blogs.map Blog.id).Nodup := by
  intro ops
  induction ops with
  | nil =>
    intro s s' h1 h2 h
    cases h
    exact ⟨h1, h2⟩
  | cons op rest ih =>
    intro s s' h1 h2 h
    obtain ⟨blogId, now, c⟩ := op
    simp only [applyDeletes] at h
    rw [Option.bind_eq_some] at h
    obtain ⟨o, ho, hrest⟩ := h
    obtain ⟨h1o, h2o⟩ := deleteBlog_preserves s blogId now c o h1 h2 ho
    exact ih o.state s' h1o h2o hrest

/-- createNewBlog either rejects a blank title without any change, or
prepends a document whose id is the clock value. -/
theorem createNewBlog_blogs (s : AppState) (idNow now : String) :
    createNewBlog s idNow now = s ∨
      (createNewBlog s idNow now).blogs.map Blog.id = idNow :: s.blogs.map Blog.id := by
  by_cases h : jsTrim s.newBlogTitle = ""
  · left
    simp [createNewBlog, h]
  · right
    simp [createNewBlog, h]

/-- A completed run of create and delete commands in which every create
happens at a clock instant not colliding with an existing id keeps the
ids pairwise distinct. -/
theorem applyOps_nodup :
    ∀ (ops : List EditorOp) (s s' : AppState),
      (s.blogs.map Blog.id).Nodup → createsFresh ops s = true →
      applyOps ops s = some s' → (s'.blogs.map Blog.id).Nodup := by
  intro ops
  induction ops with
  | nil =>
    intro s s' h hf happ
    cases happ
    exact h
  | cons op rest ih =>
    intro s s' h hf happ
    simp only [applyOps] at happ
    rw [Option.bind_eq_some] at happ
    obtain ⟨s2, hs2, hrest⟩ := happ
    simp only [createsFresh] at hf
    rw [Bool.and_eq_true] at hf
    obtain ⟨hguard, hnext⟩ := hf
    rw [hs2] at hnext
    have h2 : (s2.blogs.map Blog.id).Nodup := by
      cases op with
      | setNewTitle t =>
        simp only [applyOp] at hs2
        cases hs2
        exact h
      | create idNow now =>
        simp only [applyOp, Option.some.injEq] at hs2
        simp only [decide_eq_true_eq] at hguard
        rcases createNewBlog_blogs s idNow now with heq | hids
        · rw [← hs2, heq]; exact h
        · rw [← hs2, hids]
          exact List.nodup_cons.mpr ⟨hguard, h⟩
      | del blogId now c =>
        simp only [applyOp] at hs2
        rw [Option.map_eq_some'] at hs2
        obtain ⟨o, ho, ho2⟩ := hs2
        rw [← ho2]
        exact deleteBlog_nodup s blogId now c o h ho
    exact ih s2 s' h2 hnext hrest

/-! ### Word-count lemmas for the statistics claim -/

/-- One when the text starts with a non-whitespace character. -/
def headBonusNonWs : List Char → Nat
  | [] => 0
  | c :: _ => if isJsWs c then 0 else 1

/-- One when the text starts with a whitespace character. -/
def headBonusWs : List Char → Nat
  | [] => 0
  | c :: _ => if isJsWs c then 1 else 0

/-- The text has no trailing whitespace. -/
def noTrailWs (l : List Char) : Prop :=
  ∀ c, l.getLast? = some c → isJsWs c = false

theorem countRunsGo_false_eq (l : List Char) :
    countRunsGo false l = countRunsGo true l + headBonusNonWs l := by
  cases l with
  | nil => rfl
  | cons c rest =>
    by_cases hc : isJsWs c <;> simp [countRunsGo, headBonusNonWs, hc]

theorem wsRunsGo_false_eq (l : List Char) :
    wsRunsGo false l = wsRunsGo true l + headBonusWs l := by
  cases l with
  | nil => rfl
  | cons c rest =>
    by_cases hc : isJsWs c <;> simp [wsRunsGo, headBonusWs, hc]

theorem countRuns_true_eq : ∀ l : List Char, noTrailWs l →
    countRunsGo true l = wsRunsGo false l := by
  intro l
  induction l with
  | nil => intro _; rfl
  | cons c rest ih =>
    intro hlast
    cases rest with
    | nil =>
      have hc : isJsWs c = false := hlast c (by simp)
      simp [countRunsGo, wsRunsGo, hc]
    | cons d rest2 =>
      have hlast2 : noTrailWs (d :: rest2) := fun x hx =>
        hlast x (by rw [List.getLast?_cons_cons]; exact hx)
      by_cases hc : isJsWs c
      · have hbonus : headBonusWs (d :: rest2) + headBonusNonWs (d :: rest2) = 1 := by
          by_cases hd : isJsWs d <;> simp [headBonusWs, headBonusNonWs, hd]
        have h1 : countRunsGo true (c :: d :: rest2) = countRunsGo false (d :: rest2) := by
          simp [countRunsGo, hc]
        have h2 : wsRunsGo false (c :: d :: rest2) = wsRunsGo true (d :: rest2) + 1 := by
          simp [wsRunsGo, hc]
        rw [h1, h2, countRunsGo_false_eq, ih hlast2, wsRunsGo_false_eq]
        omega
      · have h1 : countRunsGo true (c :: d :: rest2) = countRunsGo true (d :: rest2) := by
          simp [countRunsGo, hc]
        have h2 : wsRunsGo false (c :: d :: rest2) = wsRunsGo false (d :: rest2) := by
          simp [wsRunsGo, hc]
        rw [h1, h2, ih hlast2]

theorem splitGo_length : ∀ (l : List Char) (b : Bool) (acc : List Char),
    (splitGo b acc l).length = wsRunsGo b l + 1 := by
  intro l
  induction l with
  | nil =>
    intro b acc
    cases b <;> simp [splitGo, wsRunsGo]
  | cons c rest ih =>
    intro b acc
    cases b with
    | false =>
      by_cases hc : isJsWs c <;> simp [splitGo, wsRunsGo, hc, ih]
    | true =>
      by_cases hc : isJsWs c <;> simp [splitGo, wsRunsGo, hc, ih]

/-- The word count computed by updateStats equals the number of
whitespace-separated runs, on any text with no leading and no trailing
whitespace. -/
theorem code_words_eq_spec (l : List Char)
    (hhead : ∀ c, l.head? = some c → isJsWs c = false) (hlast : noTrailWs l) :
    (if 0 < l.length then (splitGo false [] l).length else 0) = specWordCount l := by
  cases l with
  | nil => rfl
  | cons c rest =>
    have hc : isJsWs c = false := hhead c rfl
    have hpos : 0 < (c :: rest).length := by simp
    rw [if_pos hpos, splitGo_length, specWordCount, countRunsGo_false_eq,
      countRuns_true_eq _ hlast]
    simp [headBonusNonWs, hc]

/-! ### Trim lemmas -/

theorem dropWhile_head_not (p : Char → Bool) : ∀ (l : List Char) (c : Char),
    (l.dropWhile p).head? = some c → p c = false := by
  intro l
  induction l with
  | nil => intro c hc; simp [List.dropWhile] at hc
  | cons a t ih =>
    intro c hc
    by_cases ha : p a
    · rw [List.dropWhile_cons, if_pos ha] at hc
      exact ih c hc
    · rw [List.dropWhile_cons, if_neg ha] at hc
      cases hc
      exact Bool.not_eq_true _ ▸ (by simpa using ha)

theorem dropWhile_getLast? (p : Char → Bool) : ∀ (l : List Char),
    l.dropWhile p ≠ [] → (l.dropWhile p).getLast? = l.getLast? := by
  intro l
  induction l with
  | nil => intro h; simp [List.dropWhile] at h
  | cons a t ih =>
    intro h
    by_cases ha : p a
    · rw [List.dropWhile_cons, if_pos ha] at h ⊢
      rw [ih h]
      cases t with
      | nil => simp [List.dropWhile] at h
      | cons b t2 => rw [List.getLast?_cons_cons]
    · rw [List.dropWhile_cons, if_neg ha]

/-- Trimmed text has no leading whitespace. -/
theorem trimL_head (l : List Char) :
    ∀ c, (trimL l).head? = some c → isJsWs c = false := by
  intro c hc
  unfold trimL at hc
  rw [List.head?_reverse] at hc
  have hne : (l.dropWhile isJsWs).reverse.dropWhile isJsWs ≠ [] := by
    intro h0
    rw [h0] at hc
    simp at hc
  rw [dropWhile_getLast? _ _ hne, List.getLast?_reverse] at hc
  exact dropWhile_head_not _ _ c hc

/-- Trimmed text has no trailing whitespace. -/
theorem trimL_noTrail (l : List Char) : noTrailWs (trimL l) := by
  intro c hc
  unfold trimL at hc
  rw [← List.head?_reverse, List.reverse_reverse] at hc
  exact dropWhile_head_not _ _ c hc

/-- When the quota is not exceeded, saveBlogs writes the collection. -/
theorem saveBlogs_ok (st : LocalStorage) (bs : List Blog)
    (hq : st.quotaExceeded = false) :
    saveBlogs st bs = { st with blogs := some bs } := by
  simp [saveBlogs, setItemBlogs, hq]

/-! ### The claims -/

/-- Claim C1.  The claim states that switching away from a document with
unsaved editor content E and back again leaves that document with content
E, the switch committing the outgoing editor content into the document
collection before loading the target.  The code does not do this: the
flush in switchBlog (App.jsx:160-174) writes the updated collection to
localStorage only and never calls setBlogs, while the load step reads the
in-memory collection.  This theorem evaluates the failing run: after the
first switch, localStorage holds X but the in-memory collection still
holds the pre-edit seedA; after switching back, the editor and the
collection show seedA, and the second flush has overwritten localStorage
with the stale collection, so X is lost everywhere. -/
theorem c1_switch_loses_unsaved_edits :
    (switchBlog sTwo "2" "t1").map
        (fun s1 => (s1.storage.blogs.map (List.map Blog.content),
                    s1.blogs.map Blog.content, s1.editor)) =
      some (some ["<p>X</p>", "<p>seedB</p>"],
            ["<p>seedA</p>", "<p>seedB</p>"], some "<p>seedB</p>") ∧
    ((switchBlog sTwo "2" "t1").bind fun s1 => switchBlog s1 "1" "t2").map
        (fun s2 => (s2.editor, s2.blogs.map Blog.content,
                    s2.storage.blogs.map (List.map Blog.content))) =
      some (some "<p>seedA</p>", ["<p>seedA</p>", "<p>seedB</p>"],
            some ["<p>seedA</p>", "<p>seedB</p>"]) := by
  exact ⟨by decide, by decide⟩

/-- Claim C2.  The claim states that delete(id) on a collection with more
than one document removes the document from memory and persistent
storage and, when it was active, activates the first remaining document
through the flush-then-load protocol.  The code removes it from memory
and initially from storage, but the nested switchBlog call reads the
pre-delete snapshot of the collection (the closure of the same render)
and its flush re-persists that pre-delete collection, so the deleted
document survives in localStorage.  This theorem evaluates the failing
run: in memory only document 2 remains and it is active, but storage
again holds both ids. -/
theorem c2_delete_resurrects_in_storage :
    (deleteBlog sTwo "1" "t1" true).map
        (fun o => (o.state.blogs.map Blog.id,
                   o.state.storage.blogs.map (List.map Blog.id),
                   o.state.currentBlogId, o.alerted)) =
      some (["2"], some ["1", "2"], some "2", false) := by
  decide

/-- Claim C3.  For every sequence of delete commands starting from a
non-empty collection (whose ids are pairwise distinct, the documented
collection invariant), the collection never becomes empty, and deleting
the sole remaining document is a no-op that shows the last-document
notice and changes no state. -/
theorem c3_never_empty :
    ∀ (s : AppState) (ops : List (String × String × Bool)),
      s.blogs ≠ [] → (s.blogs.map Blog.id).Nodup →
      ((∀ s', applyDeletes ops s = some s' → s'.blogs ≠ []) ∧
       (s.blogs.length = 1 →
         ∀ blogId now c,
           deleteBlog s blogId now c = some { state := s, alerted := true })) := by
  intro s ops h1 h2
  constructor
  · intro s' h
    exact (applyDeletes_preserves ops s s' h1 h2 h).1
  · intro hlen blogId now c
    unfold deleteBlog
    rw [if_pos hlen]

/-- Witness for C3 at a concrete input: with a single document, the
delete command alerts and leaves the state unchanged. -/
theorem c3_w :
    deleteBlog sOne "1" "t1" true = some { state := sOne, alerted := true } :=
  (c3_never_empty sOne [] (by decide) (by decide)).2 (by decide) "1" "t1" true

/-- Claim C4, counterexample.  The claim asserts that ids remain
pairwise distinct over every create/delete sequence.  Ids come from
Date.now().toString() with no collision check (App.jsx:140), so two
creates in the same millisecond produce the same id: this sequence ends
with ids 5, 5, 1, which are not pairwise distinct. -/
theorem c4_cex :
    (applyOps opsDupW sSeedNotes).map (fun s => s.blogs.map Blog.id) =
      some ["5", "5", "1"] ∧
    ¬ (["5", "5", "1"] : List String).Nodup := by
  exact ⟨by decide, by decide⟩

/-- Claim C4, amended.  For every sequence of create and delete commands
in which each create happens at a clock instant whose millisecond string
differs from every id then in the collection, the ids remain pairwise
distinct. -/
theorem c4_unique_ids :
    ∀ (ops : List EditorOp) (s s' : AppState),
      (s.blogs.map Blog.id).Nodup → createsFresh ops s = true →
      applyOps ops s = some s' → (s'.blogs.map Blog.id).Nodup :=
  fun ops s s' h hf happ => applyOps_nodup ops s s' h hf happ

/-- Witness for C4 at a concrete input: a fresh create followed by a
delete keeps the ids distinct. -/
theorem c4_w :
    (((applyOps opsFreshW sSeedNotes).getD sSeedNotes).blogs.map Blog.id).Nodup :=
  c4_unique_ids opsFreshW sSeedNotes ((applyOps opsFreshW sSeedNotes).getD sSeedNotes)
    (by decide) (by decide) (by decide)

/-- Claim C5.  The claim states that a burst of change signals, each
within the 3000 ms quiet period of the previous one, yields exactly one
commit to the document store and the persistence layer, one quiet period
after the last signal.  The debounce mechanics are as claimed: each
signal cancels the previous timer and exactly one timer fires, at the
last signal plus 3000 ms.  But the timer callback reads currentBlogId
and blogs from the closure of the mount effect, which ran on the first
render where they were null and empty (App.jsx:285), so its guard fails
and it commits nothing.  This theorem evaluates the failing run: one
firing, and the final state differs from the initial one only in
isSaved = false — no write to the collection or to localStorage ever
happens. -/
theorem c5_autosave_fires_without_commit :
    runBurst mountSnapshotBlogs mountSnapshotCurrentId sOne
        [0, 1000, 2000] "t1" "t1s" =
      ({ sOne with isSaved := false }, 1) := by
  decide

/-- Claim C6, counterexample.  The claim states that a document switch
cancels a pending autosave timer after flushing, and that unmount does
the same.  In the code switchBlog never touches the timer (the armed
timer survives the switch, still due at 2500), and the unmount cleanup
(App.jsx:312-318) clears the timer while changing nothing else — in
particular it performs no flush, although the editor holds content that
differs from the stored document. -/
theorem c6_cex :
    ((switchBlog { sTwo with pendingTimer := some 2500 } "2" "t1").map
        (fun s => s.pendingTimer) = some (some 2500)) ∧
    unmountCleanup { sTwo with pendingTimer := some 2500 } =
      { sTwo with pendingTimer := none } := by
  exact ⟨by decide, by decide⟩

/-- Claim C6, amended.  A document switch leaves any pending autosave
timer armed (it can still fire after the switch), and unmount cancels a
pending timer without performing any flush: the cleanup changes nothing
but the timer field. -/
theorem c6_switch_keeps_timer :
    ∀ (s : AppState) (blogId now : String),
      (∀ s', switchBlog s blogId now = some s' → s'.pendingTimer = s.pendingTimer) ∧
      unmountCleanup s = { s with pendingTimer := none } := by
  intro s blogId now
  refine ⟨?_, rfl⟩
  intro s' h
  exact (switchBlogCore_frame _ _ _ _ _ _ h).2

/-- Witness for C6 at a concrete input. -/
theorem c6_w :
    ((switchBlog sTwo "2" "t1").getD sTwo).pendingTimer = sTwo.pendingTimer :=
  (c6_switch_keeps_timer sTwo "2" "t1").1 ((switchBlog sTwo "2" "t1").getD sTwo)
    (by decide)

/-- Claim C7, counterexample.  The claim states that when the store
write throws, isSaved stays false until a later write succeeds.  In the
code saveBlogs swallows the error and saveCurrentBlog then runs
setIsSaved(true) unconditionally (App.jsx:239): over a store whose
writes throw, the save leaves storage untouched, keeps the update in
memory, and still reports saved. -/
theorem c7_cex :
    (saveCurrentBlog sOneQuota "<p>edited</p>" "" "t1" "t1s").isSaved = true ∧
    (saveCurrentBlog sOneQuota "<p>edited</p>" "" "t1" "t1s").storage =
      sOneQuota.storage ∧
    (saveCurrentBlog sOneQuota "<p>edited</p>" "" "t1" "t1s").blogs.map
        Blog.content = ["<p>edited</p>"] := by
  exact ⟨by decide, by decide, by decide⟩

/-- Claim C7, amended.  When the store write throws, the error is never
propagated (saveBlogs returns normally with the storage unchanged) and
the in-memory collection keeps the committed update, but the save-status
flag is set to true, not kept false: the indicator shows saved even
though nothing was persisted. -/
theorem c7_save_error_swallowed :
    ∀ (s : AppState) (content blogTitle now nowTime cid : String),
      s.currentBlogId = some cid → cid ≠ "" → s.storage.quotaExceeded = true →
      (∀ bs, saveBlogs s.storage bs = s.storage) ∧
      (saveCurrentBlog s content blogTitle now nowTime).storage = s.storage ∧
      (saveCurrentBlog s content blogTitle now nowTime).blogs =
        (s.blogs.map fun b =>
          if b.id = cid then
            { b with
              title := if blogTitle = "" then b.title else blogTitle
              content := content
              lastSaved := now }
          else b) ∧
      (saveCurrentBlog s content blogTitle now nowTime).isSaved = true := by
  intro s content blogTitle now nowTime cid hcid hne hq
  have hsb : ∀ bs, saveBlogs s.storage bs = s.storage := by
    intro bs
    simp [saveBlogs, setItemBlogs, hq]
  refine ⟨hsb, ?_, ?_, ?_⟩ <;>
    simp [saveCurrentBlog, jsTruthy, hcid, hne, hsb]

/-- Witness for C7 at a concrete input. -/
theorem c7_w :
    (saveCurrentBlog sOneQuota "<p>q</p>" "T" "t2" "t2s").isSaved = true :=
  (c7_save_error_swallowed sOneQuota "<p>q</p>" "T" "t2" "t2s" "1" rfl
    (by decide) rfl).2.2.2

/-- Claim C8.  The statistics function strips markup tags, trims, and
returns word count = the number of whitespace-separated runs of the
trimmed text (zero when it is empty) and character count = the length of
the trimmed plain text; on the two given inputs it returns (2, 8) and
(0, 0). -/
theorem c8_stats_correct :
    updateStats "<h1>Hi there</h1>" = (2, 8) ∧
    updateStats "<p></p>" = (0, 0) ∧
    ∀ content : String,
      updateStats content =
        (specWordCount (trimL (stripTagsL content.toList)),
         (trimL (stripTagsL content.toList)).length) := by
  refine ⟨by decide, by decide, ?_⟩
  intro content
  simp only [updateStats]
  exact Prod.ext (code_words_eq_spec _ (trimL_head _) (trimL_noTrail _)) rfl

/-- Claim C9.  create is a no-op on a blank title; otherwise it builds a
document with the clock id, both timestamps, and the seed body derived
from the title, prepends it, makes it active and persists the new
collection; on the seeded store, creating Notes yields two documents
with Notes active and its seed content stored. -/
theorem c9_create :
    (∀ (s : AppState) (idNow now : String),
      jsTrim s.newBlogTitle = "" → createNewBlog s idNow now = s) ∧
    (∀ (s : AppState) (idNow now : String),
      jsTrim s.newBlogTitle ≠ "" → s.storage.quotaExceeded = false →
      createNewBlog s idNow now =
        { s with
          blogs := { id := idNow
                     title := s.newBlogTitle
                     content := "<h1>" ++ s.newBlogTitle ++ "</h1><p>Start writing...</p>"
                     createdAt := now
                     lastSaved := now
                     wordCount := some 0
                     charCount := some 0 } :: s.blogs
          currentBlogId := some idNow
          title := s.newBlogTitle
          storage := { s.storage with
            blogs := some ({ id := idNow
                             title := s.newBlogTitle
                             content := "<h1>" ++ s.newBlogTitle ++ "</h1><p>Start writing...</p>"
                             createdAt := now
                             lastSaved := now
                             wordCount := some 0
                             charCount := some 0 } :: s.blogs) }
          newBlogTitle := ""
          showNewBlogForm := false }) ∧
    ((createNewBlog sSeedNotes "9" "t1").blogs.map
        (fun b => (b.id, b.title, b.content)) =
      [("9", "Notes", "<h1>Notes</h1><p>Start writing...</p>"),
       ("1", "Welcome", welcomeBlog.content)] ∧
     (createNewBlog sSeedNotes "9" "t1").currentBlogId = some "9" ∧
     (createNewBlog sSeedNotes "9" "t1").storage.blogs =
       some (createNewBlog sSeedNotes "9" "t1").blogs) := by
  refine ⟨?_, ?_, by decide, by decide, by decide⟩
  · intro s idNow now h
    simp [createNewBlog, h]
  · intro s idNow now h hq
    simp [createNewBlog, h, saveBlogs_ok _ _ hq]

/-- Witness for C9 at concrete inputs: a whitespace-only title changes
nothing, and creating on the seeded store builds the new state. -/
theorem c9_w :
    createNewBlog { sSeedNotes with newBlogTitle := " " } "9" "t1" =
      { sSeedNotes with newBlogTitle := " " } ∧
    createNewBlog sSeedNotes "9" "t1" =
      { sSeedNotes with
        blogs := { id := "9"
                   title := sSeedNotes.newBlogTitle
                   content := "<h1>" ++ sSeedNotes.newBlogTitle ++ "</h1><p>Start writing...</p>"
                   createdAt := "t1"
                   lastSaved := "t1"
                   wordCount := some 0
                   charCount := some 0 } :: sSeedNotes.blogs
        currentBlogId := some "9"
        title := sSeedNotes.newBlogTitle
        storage := { sSeedNotes.storage with
          blogs := some ({ id := "9"
                           title := sSeedNotes.newBlogTitle
                           content := "<h1>" ++ sSeedNotes.newBlogTitle ++ "</h1><p>Start writing...</p>"
                           createdAt := "t1"
                           lastSaved := "t1"
                           wordCount := some 0
                           charCount := some 0 } :: sSeedNotes.blogs) }
        newBlogTitle := ""
        showNewBlogForm := false } :=
  ⟨c9_create.1 { sSeedNotes with newBlogTitle := " " } "9" "t1" (by decide),
   c9_create.2.1 sSeedNotes "9" "t1" (by decide) rfl⟩

/-- Claim C10.  Switching to an id that matches no document still runs
the flush: the outgoing document content, with a refreshed lastSaved,
is written to persistent storage; but the active id, the stored
current-id pointer, the title, the editor content, the save flag and the
statistics are all unchanged. -/
theorem c10_switch_unknown_id :
    ∀ (s : AppState) (targetId now cid econtent : String),
      s.currentBlogId = some cid → cid ≠ "" → s.editor = some econtent →
      (∀ b ∈ s.blogs, b.id ≠ targetId) → s.storage.quotaExceeded = false →
      switchBlog s targetId now =
        some { s with storage := { s.storage with
          blogs := some (s.blogs.map fun b =>
            if b.id = cid then { b with content := econtent, lastSaved := now }
            else b) } } := by
  intro s targetId now cid econtent hcid hne hed hnot hq
  have hfind : s.blogs.find? (fun b => decide (b.id = targetId)) = none :=
    List.find?_eq_none.mpr fun b hb => by simpa using hnot b hb
  simp only [switchBlog, switchBlogCore, flushOutgoing, loadTarget, hcid, hed,
    jsTruthy, if_neg hne, hfind, saveBlogs_ok _ _ hq]

/-- Witness for C10 at a concrete input. -/
theorem c10_w :
    switchBlog sTwo "404" "t9" =
      some { sTwo with storage := { sTwo.storage with
        blogs := some (sTwo.blogs.map fun b =>
          if b.id = "1" then { b with content := "<p>X</p>", lastSaved := "t9" }
          else b) } } :=
  c10_switch_unknown_id sTwo "404" "t9" "1" "<p>X</p>" rfl (by decide) rfl
    (by decide) rfl
